import Mathlib

/-!
Verification of the blinkpy-fetch harvester (src/src/__main__.py) against its
design specification. The script's two functions, init and main, are embedded
shallowly: external collaborators (the blinkpy library, the network, the
filesystem) are abstracted at their interface boundary, while every decision
made by the script itself (credential checks, login-data construction, the
readiness check, the reversed manifest iteration, the per-clip step sequence,
the download path, the pacing sleep) is translated directly from the source.
-/

/-- A manifest entry. In the source this is a blinkpy LocalStorageMediaItem;
the fields used by the script are its name, its creation timestamp (which
orders the SortedSet manifest ascending, per the spec of the external
container), and the rendering of that timestamp that Python's
created_at.astimezone().isoformat() produces (local-timezone ISO-8601),
which the script only ever consumes as a string. -/
structure Clip where
  identity : Nat
  name : String
  createdAt : Int
  localIso : String
deriving DecidableEq, Repr

/-- Python's single-character str.replace: replace every occurrence of
character a by character b. -/
def pyReplaceChar (s : String) (a b : Char) : String :=
  String.mk (s.toList.map fun ch => if ch = a then b else ch)

/-- The file name built on line 101 of the source, without the directory part:
item.name.replace(' ','_') + '_' +
item.created_at.astimezone().isoformat().replace(':','_') + '.mp4'. -/
def downloadBasename (c : Clip) : String :=
  pyReplaceChar c.name ' ' '_' ++ "_" ++ pyReplaceChar c.localIso ':' '_' ++ ".mp4"

/-- The directory component of the download path. Line 94 of the source
hard-codes path = "Videos"; the parsed target_dir is not consulted. -/
def videosPath : String := "Videos"

/-- The full destination string passed to download_video on lines 99-102:
f"{path}/{...}.mp4" with path = "Videos". -/
def downloadDest (c : Clip) : String :=
  videosPath ++ "/" ++ downloadBasename c

/-- One awaited remote operation of the harvest loop (lines 96-104):
prepare_download, download_video (with its destination argument),
delete_video, and the asyncio.sleep pause. -/
inductive Step where
  | prepare (c : Clip)
  | download (c : Clip) (dest : String)
  | delete (c : Clip)
  | sleep (seconds : Nat)
deriving DecidableEq, Repr

/-- Outcomes of the three fallible remote collaborators for each clip:
true means the awaited call returns normally, false means it raises.
The script has no try/except, so a raising call aborts the run. -/
structure StepOutcomes where
  prepareOk : Clip → Bool
  downloadOk : Clip → Bool
  deleteOk : Clip → Bool

/-- The trace of remote operations the loop body performs on a list of clips,
in the order the loop visits them. Each iteration awaits prepare_download,
then download_video, then delete_video, then asyncio.sleep(2); a raising
await terminates the run at that point (the failing call itself was still
invoked, so it appears in the trace). -/
def drainFrom (o : StepOutcomes) : List Clip → List Step
  | [] => []
  | c :: rest =>
    match o.prepareOk c, o.downloadOk c, o.deleteOk c with
    | true, true, true =>
        Step.prepare c :: Step.download c (downloadDest c) :: Step.delete c ::
          Step.sleep 2 :: drainFrom o rest
    | true, true, false =>
        [Step.prepare c, Step.download c (downloadDest c), Step.delete c]
    | true, false, _ =>
        [Step.prepare c, Step.download c (downloadDest c)]
    | false, _, _ =>
        [Step.prepare c]

/-- The harvest loop of lines 96-104: for item in reversed(manifest).
The manifest argument is the SortedSet contents in its natural ascending
creation order; the loop consumes it reversed. -/
def drain (o : StepOutcomes) (manifest : List Clip) : List Step :=
  drainFrom o manifest.reverse

theorem drain_def (o : StepOutcomes) (manifest : List Clip) :
    drain o manifest = drainFrom o manifest.reverse := rfl

/-- The clips in the order the pipeline processes them: the clip of each
prepare step, in trace order. -/
def processedOrder (steps : List Step) : List Clip :=
  steps.filterMap fun s =>
    match s with
    | Step.prepare c => some c
    | _ => none

/-- Outcomes under which every remote call succeeds. -/
def allOk : StepOutcomes :=
  { prepareOk := fun _ => true, downloadOk := fun _ => true, deleteOk := fun _ => true }

/-- Outcomes under which every download_video call raises. -/
def failingDownload : StepOutcomes :=
  { prepareOk := fun _ => true, downloadOk := fun _ => false, deleteOk := fun _ => true }

/-- The three BLINK_* environment variables read by init; os.getenv yields
none when a variable is unset. -/
structure Env where
  username : Option String
  password : Option String
  uid : Option String

/-- Python truthiness of an os.getenv result: None and the empty string are
falsy, any other string is truthy. -/
def pyTruthy : Option String → Bool
  | none => false
  | some s => !(s == "")

/-- A value stored in the login_data dict: the script stores strings and, for
the reauth key, the boolean False. -/
inductive LoginValue where
  | str (s : String)
  | bool (b : Bool)
deriving DecidableEq, Repr

/-- The Auth configuration built by init: the login_data dict (as an ordered
association list, Python dicts preserving insertion order) and the no_prompt
flag computed as "uid" in login_data. -/
structure AuthConfig where
  loginData : List (String × LoginValue)
  noPrompt : Bool
deriving DecidableEq, Repr

/-- The two ValueError cases raised by init before any network use. -/
inductive InitError where
  | missingUsername
  | missingPassword
deriving DecidableEq, Repr

/-- A remote interaction performed by init; blink.start() on line 64 is the
only one (constructing Blink and Auth objects performs no I/O). -/
inductive NetCall where
  | blinkStart
deriving DecidableEq, Repr

/-- What init produces: either a ValueError or the Auth configuration,
together with the list of network interactions performed. -/
structure InitResult where
  outcome : Except InitError AuthConfig
  netCalls : List NetCall
deriving Repr

/-- Lines 27-68 of the source. Credential checks come first and raise before
any network interaction; the uid is merged into login_data only when the
BLINK_UID value is truthy (set and non-empty); no_prompt is the presence of
the "uid" key in login_data; on the success path blink.start() is awaited. -/
def init (env : Env) : InitResult :=
  if !pyTruthy env.username then
    { outcome := Except.error InitError.missingUsername, netCalls := [] }
  else if !pyTruthy env.password then
    { outcome := Except.error InitError.missingPassword, netCalls := [] }
  else
    let base : List (String × LoginValue) :=
      [("username", LoginValue.str (env.username.getD "")),
       ("password", LoginValue.str (env.password.getD ""))]
    let loginData : List (String × LoginValue) :=
      if pyTruthy env.uid then
        base ++ [("uid", LoginValue.str (env.uid.getD "")),
                 ("reauth", LoginValue.bool false)]
      else base
    { outcome := Except.ok { loginData := loginData
                             noPrompt := (loginData.lookup "uid").isSome }
      netCalls := [NetCall.blinkStart] }

/-- argparse handling of --target-dir (lines 113-118): the given path, or the
default "./downloads" when the option is absent. -/
def parseTargetDir : Option String → String
  | none => "./downloads"
  | some p => p

/-- Whether path names a file located under directory dir, i.e. dir followed
by a path separator is a prefix of path. -/
def underDir (dir path : String) : Bool :=
  List.isPrefixOf (dir.toList ++ ['/']) path.toList

/-- Everything observable about one execution of main after init succeeded:
the lower bound sent with the manifest refresh call, the readiness message
printed, the harvest-loop trace, and the manifest contents when the run
ends. -/
structure RunTrace where
  refreshSince : Option String
  readyMsg : String
  steps : List Step
  finalManifest : List Clip
deriving DecidableEq, Repr

/-- Lines 71-105 of the source, after init. targetDir and since are the two
arguments main receives from argparse. localStorage and manifestReady are
the values of my_sync.local_storage and my_sync.local_storage_manifest_ready
after the refresh; manifest is the SortedSet contents the refresh produced,
in ascending creation order. The refresh call on line 83 passes no lower
bound, the readiness test on line 84 only selects which message is printed,
the loop of lines 96-104 runs unconditionally on the reversed manifest, and
no statement of the loop removes entries from the manifest. -/
def mainRun (targetDir : String) (since : Option String) (o : StepOutcomes)
    (localStorage manifestReady : Bool) (manifest : List Clip) : RunTrace :=
  { refreshSince := none
  , readyMsg :=
      if localStorage && manifestReady then "Manifest is ready" else "Manifest not ready"
  , steps := drain o manifest
  , finalManifest := manifest }

/-- Concrete clips with ascending creation timestamps, for witnesses and
counterexamples. -/
def kA : Clip := { identity := 1, name := "a", createdAt := 1, localIso := "ta" }

def kB : Clip := { identity := 2, name := "b", createdAt := 2, localIso := "tb" }

def kC : Clip := { identity := 3, name := "c", createdAt := 3, localIso := "tc" }

/-- The clip of the specification's filename example. -/
def frontDoor : Clip :=
  { identity := 0
  , name := "Front Door"
  , createdAt := 1704182645
  , localIso := "2024-01-02T03:04:05-05:00" }

theorem processedOrder_drainFrom_allOk (l : List Clip) :
    processedOrder (drainFrom allOk l) = l := by
  induction l with
  | nil => rfl
  | cons c rest ih => simpa [drainFrom, processedOrder, allOk, List.filterMap_cons] using ih

theorem downloadOk_of_delete_mem_drainFrom (o : StepOutcomes) (c : Clip) :
    ∀ l : List Clip, Step.delete c ∈ drainFrom o l → o.downloadOk c = true := by
  intro l
  induction l with
  | nil => intro h; simp [drainFrom] at h
  | cons c0 rest ih =>
    intro h
    cases hp : o.prepareOk c0 <;> cases hd : o.downloadOk c0 <;> cases hdl : o.deleteOk c0 <;>
        simp [drainFrom, hp, hd, hdl] at h
    all_goals
      first
      | (rcases h with rfl | h
         · exact hd
         · exact ih h)
      | (subst h; exact hd)

/-- C1 counterexample: three manifest entries with strictly ascending creation
timestamps are not processed oldest first; the loop over reversed(manifest)
prepares the newest clip first. -/
theorem drain_not_oldest_first_counterexample :
    kA.createdAt < kB.createdAt ∧ kB.createdAt < kC.createdAt ∧
    processedOrder (drain allOk [kA, kB, kC]) = [kC, kB, kA] ∧
    processedOrder (drain allOk [kA, kB, kC]) ≠ [kA, kB, kC] := by decide

/-- C1 amended: for manifest entries with pairwise-distinct createdAt
timestamps t1 < t2 < t3, the harvest loop processes the t3 clip first, then
t2, then t1 — newest first, since line 96 iterates the ascending manifest
through reversed(). -/
theorem drain_newest_first (c1 c2 c3 : Clip)
    (h12 : c1.createdAt < c2.createdAt) (h23 : c2.createdAt < c3.createdAt) :
    processedOrder (drain allOk [c1, c2, c3]) = [c3, c2, c1] := rfl

/-- Witness for drain_newest_first at the concrete ascending clips kA kB kC. -/
theorem drain_newest_first_witness :
    kA.createdAt < kB.createdAt ∧ kB.createdAt < kC.createdAt ∧
    processedOrder (drain allOk [kA, kB, kC]) = [kC, kB, kA] :=
  ⟨by decide, by decide, drain_newest_first kA kB kC (by decide) (by decide)⟩

/-- C3: the download step's file name is the displayName with spaces replaced
by underscores, an underscore, the local-timezone ISO-8601 rendering of
createdAt with colons replaced by underscores, and ".mp4"; for a clip named
"Front Door" created at local time 2024-01-02T03:04:05-05:00 this is exactly
Front_Door_2024-01-02T03_04_05-05_00.mp4, and the pipeline's download step
for that clip writes to that file name. -/
theorem download_filename_front_door :
    downloadBasename frontDoor = "Front_Door_2024-01-02T03_04_05-05_00.mp4" ∧
    drain allOk [frontDoor] =
      [Step.prepare frontDoor,
       Step.download frontDoor "Videos/Front_Door_2024-01-02T03_04_05-05_00.mp4",
       Step.delete frontDoor,
       Step.sleep 2] := by decide

/-- C5 counterexample: a run whose manifest-ready state after refresh is false
still executes the harvest loop; with one clip and all collaborators
succeeding, prepare, download and delete are all performed. -/
theorem not_ready_still_harvests :
    (mainRun "./downloads" none allOk true false [kA]).readyMsg = "Manifest not ready" ∧
    (mainRun "./downloads" none allOk true false [kA]).steps ≠ [] ∧
    Step.prepare kA ∈ (mainRun "./downloads" none allOk true false [kA]).steps ∧
    Step.delete kA ∈ (mainRun "./downloads" none allOk true false [kA]).steps := by decide

/-- C5 amended: when the manifest-ready state reported after refresh is false,
the run only prints "Manifest not ready"; the harvest loop proceeds exactly
as in a ready run, performing the same prepare, download and delete steps on
the manifest. -/
theorem not_ready_only_affects_message (td : String) (s : Option String)
    (o : StepOutcomes) (ls : Bool) (l : List Clip) :
    (mainRun td s o ls false l).steps = (mainRun td s o ls true l).steps ∧
    (mainRun td s o ls false l).steps = drain o l ∧
    (mainRun td s o ls false l).readyMsg = "Manifest not ready" := by
  refine ⟨rfl, rfl, ?_⟩
  simp [mainRun]

/-- C6 counterexample: a run on one clip in which prepare, download and delete
all complete leaves the Manifest unchanged and non-empty: the loop never
removes entries. -/
theorem manifest_not_emptied_counterexample :
    (mainRun "./downloads" none allOk true true [kA]).steps =
      [Step.prepare kA, Step.download kA "Videos/a_ta.mp4", Step.delete kA,
       Step.sleep 2] ∧
    (mainRun "./downloads" none allOk true true [kA]).finalManifest = [kA] ∧
    (mainRun "./downloads" none allOk true true [kA]).finalManifest ≠ [] := by decide

/-- C6 amended: the delete step only requests removal from remote storage; no
statement of the run removes entries from the in-memory Manifest, so after
every run — including one in which prepare, download and delete succeed for
every clip — the Manifest still equals its post-refresh contents (in
particular it is not empty unless it started empty). -/
theorem manifest_unchanged_by_run (td : String) (s : Option String)
    (o : StepOutcomes) (ls mr : Bool) (l : List Clip) :
    (mainRun td s o ls mr l).finalManifest = l := rfl

/-- C2: for every clip whose download step fails (download_video raises),
delete_video is never invoked for that clip: the delete step appears in no
run over any manifest. The awaits on lines 99-103 are strictly sequential
and unguarded, so a raising download aborts the clip's transition before the
delete call. -/
theorem delete_only_after_successful_download (o : StepOutcomes) (l : List Clip)
    (c : Clip) (h : o.downloadOk c = false) : Step.delete c ∉ drain o l := by
  intro hmem
  rw [drain_def] at hmem
  rw [downloadOk_of_delete_mem_drainFrom o c l.reverse hmem] at h
  exact Bool.noConfusion h

/-- Witness for delete_only_after_successful_download: with a collaborator
whose download always fails, the delete step for kA is absent from the run
over the manifest containing kA. -/
theorem delete_only_after_successful_download_witness :
    failingDownload.downloadOk kA = false ∧
    Step.delete kA ∉ drain failingDownload [kA, kB] :=
  ⟨rfl, delete_only_after_successful_download failingDownload [kA, kB] kA rfl⟩

/-- C4: the --target-dir option has no effect on the run, and the downloaded
file is not written under the default "./downloads": line 94 hard-codes the
directory "Videos" and the parsed target_dir is never consulted. The default
value itself is "./downloads" as claimed. -/
theorem target_dir_ignored_bug :
    parseTargetDir none = "./downloads" ∧
    (∀ (td1 td2 : String) (s : Option String) (o : StepOutcomes) (ls mr : Bool)
       (l : List Clip), mainRun td1 s o ls mr l = mainRun td2 s o ls mr l) ∧
    (mainRun (parseTargetDir none) none allOk true true [frontDoor]).steps =
      [Step.prepare frontDoor,
       Step.download frontDoor "Videos/Front_Door_2024-01-02T03_04_05-05_00.mp4",
       Step.delete frontDoor,
       Step.sleep 2] ∧
    underDir (parseTargetDir none) "Videos/Front_Door_2024-01-02T03_04_05-05_00.mp4"
      = false ∧
    underDir videosPath "Videos/Front_Door_2024-01-02T03_04_05-05_00.mp4" = true := by
  refine ⟨rfl, fun _ _ _ _ _ _ _ => rfl, by decide, by decide, by decide⟩

/-- C7: the --since value is parsed and handed to main but never forwarded:
the refresh call on line 83 carries no lower bound and the whole run is
independent of the since argument, so runs with and without --since
enumerate the same clips. -/
theorem since_never_forwarded_bug :
    (∀ (td : String) (s : Option String) (o : StepOutcomes) (ls mr : Bool)
       (l : List Clip), mainRun td s o ls mr l = mainRun td none o ls mr l) ∧
    (∀ (td : String) (s : Option String) (o : StepOutcomes) (ls mr : Bool)
       (l : List Clip), (mainRun td s o ls mr l).refreshSince = none) ∧
    mainRun "./downloads" (some "2024-01-01") allOk true true [kA, kB, kC] =
      mainRun "./downloads" none allOk true true [kA, kB, kC] :=
  ⟨fun _ _ _ _ _ _ => rfl, fun _ _ _ _ _ _ => rfl, rfl⟩

/-- C8: whenever the username or the password environment value is missing or
empty (Python-falsy), init fails with a ValueError before any network
interaction: the outcome is an error and the list of network calls is
empty. -/
theorem missing_credentials_fail_before_network (env : Env)
    (h : pyTruthy env.username = false ∨ pyTruthy env.password = false) :
    (∃ e, (init env).outcome = Except.error e) ∧ (init env).netCalls = [] := by
  rcases h with h | h
  · simp [init, h]
  · cases hu : pyTruthy env.username <;> simp [init, hu, h]

/-- Witness for missing_credentials_fail_before_network: with the username
variable unset, init reports an error and performs zero network calls. -/
theorem missing_credentials_fail_before_network_witness :
    (pyTruthy (none : Option String) = false ∨ pyTruthy (some "hunter2") = false) ∧
    (∃ e, (init { username := none, password := some "hunter2", uid := none }).outcome
        = Except.error e) ∧
    (init { username := none, password := some "hunter2", uid := none }).netCalls = [] :=
  ⟨Or.inl rfl,
   missing_credentials_fail_before_network
     { username := none, password := some "hunter2", uid := none } (Or.inl rfl)⟩

/-- C10: a BLINK_UID that is set but empty is treated exactly as an absent
one: init produces the same result, any successful configuration carries no
uid or reauth entry and has no_prompt = false, and no_prompt = true is only
ever produced from a set, non-empty uid. -/
theorem empty_uid_treated_as_absent (env : Env) (h : env.uid = some "") :
    init env = init { env with uid := none } ∧
    (∀ cfg : AuthConfig, (init env).outcome = Except.ok cfg →
       cfg.loginData.lookup "uid" = none ∧
       cfg.loginData.lookup "reauth" = none ∧
       cfg.noPrompt = false) ∧
    (∀ (env2 : Env) (cfg : AuthConfig), (init env2).outcome = Except.ok cfg →
       cfg.noPrompt = true → ∃ u, env2.uid = some u ∧ u ≠ "") := by
  refine ⟨?_, ?_, ?_⟩
  · simp [init, h, pyTruthy]
  · intro cfg hcfg
    have huid : pyTruthy env.uid = false := by rw [h]; decide
    cases hu : pyTruthy env.username <;> cases hpw : pyTruthy env.password <;>
        simp [init, hu, hpw, huid] at hcfg
    subst hcfg
    refine ⟨?_, ?_, ?_⟩ <;> simp [List.lookup]
  · intro env2 cfg hok hnp
    cases hu : pyTruthy env2.username <;> cases hpw : pyTruthy env2.password <;>
        simp [init, hu, hpw] at hok
    cases huid : pyTruthy env2.uid <;> simp [huid] at hok <;> subst hok
    · simp [List.lookup] at hnp
    · cases e : env2.uid with
      | none => rw [e] at huid; exact absurd huid (by simp [pyTruthy])
      | some u =>
        refine ⟨u, rfl, ?_⟩
        rw [e] at huid
        simpa [pyTruthy] using huid

/-- Witness for empty_uid_treated_as_absent at a concrete environment whose
BLINK_UID is the empty string. -/
theorem empty_uid_treated_as_absent_witness :
    ({ username := some "u", password := some "p", uid := some "" } : Env).uid = some ""
      ∧
    init { username := some "u", password := some "p", uid := some "" } =
      init { username := some "u", password := some "p", uid := none } :=
  ⟨rfl,
   (empty_uid_treated_as_absent
      { username := some "u", password := some "p", uid := some "" } rfl).1⟩

theorem drainFrom_sleep_follows_delete (o : StepOutcomes) :
    ∀ (l : List Clip) (i : Nat) (c : Clip),
      (drainFrom o l)[i]? = some (Step.delete c) →
      (drainFrom o l)[i + 1]? = none ∨ (drainFrom o l)[i + 1]? = some (Step.sleep 2) := by
  intro l
  induction l with
  | nil => intro i c h; simp [drainFrom] at h
  | cons c0 rest ih =>
    intro i c h
    cases hp : o.prepareOk c0 <;> cases hd : o.downloadOk c0 <;> cases hdl : o.deleteOk c0 <;>
        simp only [drainFrom, hp, hd, hdl] at h ⊢ <;>
      rcases i with _ | _ | _ | _ | i
    all_goals simp_all

/-- C9: for every pair of steps in which clip c is deleted at trace position
i and clip c2 is prepared at a later position j, a pacing sleep of 2 time
units occurs strictly between them: asyncio.sleep(2) on line 104 runs at the
end of every loop iteration, before the next clip's prepare. -/
theorem pacing_between_adjacent_clips (o : StepOutcomes) (l : List Clip)
    (i j : Nat) (c c2 : Clip) (hij : i < j)
    (hdel : (drain o l)[i]? = some (Step.delete c))
    (hprep : (drain o l)[j]? = some (Step.prepare c2)) :
    ∃ m, i < m ∧ m < j ∧ (drain o l)[m]? = some (Step.sleep 2) := by
  rw [drain_def] at hdel hprep
  rcases drainFrom_sleep_follows_delete o l.reverse i c hdel with hnone | hsleep
  · exfalso
    have hjlen : j < (drainFrom o l.reverse).length := by
      by_contra hle
      push_neg at hle
      rw [List.getElem?_eq_none hle] at hprep
      exact Option.noConfusion hprep
    have hlen : (drainFrom o l.reverse).length ≤ i + 1 := by
      by_contra hlt
      push_neg at hlt
      rw [List.getElem?_eq_getElem hlt] at hnone
      exact Option.noConfusion hnone
    omega
  · refine ⟨i + 1, Nat.lt_succ_self i, ?_, by rw [drain_def]; exact hsleep⟩
    rcases Nat.lt_or_ge (i + 1) j with hlt | hge
    · exact hlt
    · exfalso
      have hj1 : j = i + 1 := by omega
      rw [hj1] at hprep
      rw [hprep] at hsleep
      simp at hsleep

/-- Witness for pacing_between_adjacent_clips: in the all-success run over
the two-clip manifest, kB is deleted at position 2, kA is prepared at
position 4, and a sleep of 2 sits strictly between them. -/
theorem pacing_between_adjacent_clips_witness :
    (2 : Nat) < 4 ∧
    (drain allOk [kA, kB])[2]? = some (Step.delete kB) ∧
    (drain allOk [kA, kB])[4]? = some (Step.prepare kA) ∧
    ∃ m, 2 < m ∧ m < 4 ∧ (drain allOk [kA, kB])[m]? = some (Step.sleep 2) :=
  ⟨by decide, by decide, by decide,
   pacing_between_adjacent_clips allOk [kA, kB] 2 4 kB kA (by decide) (by decide)
     (by decide)⟩
